import Mathlib

/-!
Verification of the tweet sentiment classification-and-aggregation pipeline
from `inference/sentiment_analysis.py`, shallowly embedded in Lean.

Python floats are modelled as rationals, tweet texts as lists of characters,
and the external VADER scorer as an arbitrary function parameter.  Python
functions that can raise `ZeroDivisionError` are modelled as `Option`-valued
functions returning `none` where Python raises.
-/

namespace SentimentAnalysis

/-- A raw tweet record (`PreprocessedTweet`): a text and a millisecond timestamp. -/
structure PreprocessedTweet where
  text : List Char
  timestamp_ms : Int
deriving DecidableEq, Repr

/-- The polarity-score triple produced by the external scorer
(the `polarity_scores` dict with keys `pos`, `neg`, `neu`). -/
structure PolarityScores where
  pos : ℚ
  neg : ℚ
  neu : ℚ
deriving DecidableEq, Repr

/-- One analysed tweet: the dict `{'tweet': tweet, 'polarity_scores': polarity_scores}`
returned by `sentiment_analysis`. -/
structure AnalysedTweet where
  tweet : PreprocessedTweet
  polarity_scores : PolarityScores
deriving DecidableEq, Repr

/-- Embedding of `is_tweet_negative`: `neg > 0 and neg > pos`. -/
def is_tweet_negative (t : AnalysedTweet) : Bool :=
  decide (t.polarity_scores.neg > 0 ∧ t.polarity_scores.neg > t.polarity_scores.pos)

/-- Embedding of `is_tweet_positive`: `pos > 0 and pos > neg`. -/
def is_tweet_positive (t : AnalysedTweet) : Bool :=
  decide (t.polarity_scores.pos > 0 ∧ t.polarity_scores.pos > t.polarity_scores.neg)

/-- Embedding of `is_tweet_neutral`: `neu > 0 and neu > neg and neu > pos`. -/
def is_tweet_neutral (t : AnalysedTweet) : Bool :=
  decide (t.polarity_scores.neu > 0 ∧ t.polarity_scores.neu > t.polarity_scores.neg ∧
    t.polarity_scores.neu > t.polarity_scores.pos)

/-- Reference definition of positivity taken from the spec's words:
`s.pos > 0` and `s.pos > s.neg`. -/
def is_positive_ref (s : PolarityScores) : Prop := s.pos > 0 ∧ s.pos > s.neg

/-- Reference definition of negativity taken from the spec's words:
`s.neg > 0` and `s.neg > s.pos`. -/
def is_negative_ref (s : PolarityScores) : Prop := s.neg > 0 ∧ s.neg > s.pos

/-- Reference definition of neutrality taken from the spec's words:
`s.neu > 0` and `s.neu > s.neg` and `s.neu > s.pos`. -/
def is_neutral_ref (s : PolarityScores) : Prop := s.neu > 0 ∧ s.neu > s.neg ∧ s.neu > s.pos

/-- Embedding of `classify_tweets`: a single pass over the input that appends
each tweet to every partition whose predicate holds, in input order.  The
recursion contributes the head's classifications in front of the tail's,
which is the same list the Python loop builds by forward appends. -/
def classify_tweets : List AnalysedTweet → List AnalysedTweet × List AnalysedTweet × List AnalysedTweet
  | [] => ([], [], [])
  | t :: ts =>
    let rest := classify_tweets ts
    (if is_tweet_positive t then t :: rest.1 else rest.1,
     if is_tweet_negative t then t :: rest.2.1 else rest.2.1,
     if is_tweet_neutral t then t :: rest.2.2 else rest.2.2)

/-- `sum([x['polarity_scores']['pos'] for x in positive_tweets])`. -/
def positive_sentiment_score (positive_tweets : List AnalysedTweet) : ℚ :=
  (positive_tweets.map fun x => x.polarity_scores.pos).sum

/-- `sum([x['polarity_scores']['neg'] for x in negative_tweets])`. -/
def negative_sentiment_score (negative_tweets : List AnalysedTweet) : ℚ :=
  (negative_tweets.map fun x => x.polarity_scores.neg).sum

/-- The values printed by `print_overall_metrics`, as one record. -/
structure SummaryReport where
  positive_tweets_ratio : ℚ
  negative_tweets_ratio : ℚ
  positive_score : ℚ
  negative_score : ℚ
  positive_score_percentage : ℚ
  negative_score_percentage : ℚ
deriving DecidableEq, Repr

/-- Embedding of `print_overall_metrics`.  Python raises `ZeroDivisionError`
when `len(analysed_tweets)` is zero or when the summed positive and negative
scores add to zero; both are modelled as `none`.  Otherwise the computed
values are returned in source order:
`(len(positive)/len(analysed))*100`, `(len(negative)/len(analysed))*100`,
the two score sums, and `score_sum/(pos_sum+neg_sum)*100` for each side. -/
def print_overall_metrics (analysed_tweets positive_tweets negative_tweets : List AnalysedTweet) :
    Option SummaryReport :=
  if analysed_tweets.length = 0 then none
  else if positive_sentiment_score positive_tweets + negative_sentiment_score negative_tweets = 0
    then none
  else some ⟨((positive_tweets.length : ℚ) / (analysed_tweets.length : ℚ)) * 100,
    ((negative_tweets.length : ℚ) / (analysed_tweets.length : ℚ)) * 100,
    positive_sentiment_score positive_tweets, negative_sentiment_score negative_tweets,
    positive_sentiment_score positive_tweets /
      (positive_sentiment_score positive_tweets + negative_sentiment_score negative_tweets) * 100,
    negative_sentiment_score negative_tweets /
      (positive_sentiment_score positive_tweets + negative_sentiment_score negative_tweets) * 100⟩

/-- The reference-marker substring from `analyze_tweets`: a tweet whose text
contains it merely refers to another tweet. -/
def reference_marker : List Char := "https://t.co".toList

/-- The eligibility test from `analyze_tweets`: a tweet is kept unless its
text contains the reference marker. -/
def is_eligible (text : List Char) : Bool := !decide (reference_marker <:+: text)

/-- One row of the tabular dataset: the Text and Timestamp columns. -/
structure CsvRow where
  text : List Char
  timestamp : Int
deriving DecidableEq, Repr

/-- Python truthiness of the `limit` argument in `if limit and row[0] >= limit`:
`None` and `0` are both falsy. -/
def limit_truthy : Option Nat → Bool
  | none => false
  | some n => decide (n ≠ 0)

/-- Embedding of the `analyze_tweets` loop over index-annotated rows: break
when the limit is truthy and the row index has reached it; skip rows whose
text contains the reference marker; otherwise score the text and append the
analysed tweet.  The external scorer is a function parameter. -/
def analyze_tweets_loop (score : List Char → PolarityScores) (limit : Option Nat) :
    List (Nat × CsvRow) → List AnalysedTweet
  | [] => []
  | (i, row) :: rest =>
    if limit_truthy limit && decide (limit.getD 0 ≤ i) then []
    else if is_eligible row.text then
      ⟨⟨row.text, row.timestamp⟩, score row.text⟩ :: analyze_tweets_loop score limit rest
    else analyze_tweets_loop score limit rest

/-- Embedding of `analyze_tweets`: run the loop over the enumerated rows. -/
def analyze_tweets (score : List Char → PolarityScores) (rows : List CsvRow)
    (limit : Option Nat) : List AnalysedTweet :=
  analyze_tweets_loop score limit rows.enum

/-- A trivial stand-in scorer used for concrete test inputs. -/
def zero_scorer : List Char → PolarityScores := fun _ => ⟨0, 0, 0⟩

/-- A tweet with empty text and the given polarity triple, for concrete tests. -/
def mk_scored (p q r : ℚ) : AnalysedTweet := ⟨⟨[], 0⟩, ⟨p, q, r⟩⟩

/-- Ten analysed records for the spec's worked summary example. -/
def example_all : List AnalysedTweet :=
  [mk_scored (1/2) 0 0, mk_scored (1/2) 0 0, mk_scored (1/2) 0 0, mk_scored (1/2) 0 0,
   mk_scored 0 (1/3) 0, mk_scored 0 (1/3) 0, mk_scored 0 (1/3) 0,
   mk_scored 0 0 1, mk_scored 0 0 1, mk_scored 0 0 1]

/-- The four positive records of the example; their pos scores sum to 2. -/
def example_positive : List AnalysedTweet :=
  [mk_scored (1/2) 0 0, mk_scored (1/2) 0 0, mk_scored (1/2) 0 0, mk_scored (1/2) 0 0]

/-- The three negative records of the example; their neg scores sum to 1. -/
def example_negative : List AnalysedTweet :=
  [mk_scored 0 (1/3) 0, mk_scored 0 (1/3) 0, mk_scored 0 (1/3) 0]

/-- Modelled from the spec: the ordering used by the Top-N Ranker's stable
ascending sort - lexicographic on (selected score, original position), which
is exactly Python's stable `sorted(partition, key=score_selector)`. The
source (`main`) only instantiates the ranker at n = 10 through the literal
slice `sorted(tweets, key=...)[-10:]`; the general contract is the spec's. -/
def rank_le (sel : PolarityScores → ℚ) (a b : Nat × AnalysedTweet) : Bool :=
  decide (sel a.2.polarity_scores < sel b.2.polarity_scores ∨
    (sel a.2.polarity_scores = sel b.2.polarity_scores ∧ a.1 ≤ b.1))

/-- Modelled from the spec: the stable ascending sort of a partition by the
selected score, the first half of the Top-N Ranker. -/
def sorted_by_score (sel : PolarityScores → ℚ) (l : List AnalysedTweet) :
    List (Nat × AnalysedTweet) :=
  l.enum.mergeSort (rank_le sel)

/-- Modelled from the spec: the Top-N Ranker - sort the partition ascending
by the selected score (stably) and take the last n entries. -/
def top_n (l : List AnalysedTweet) (n : Nat) (sel : PolarityScores → ℚ) :
    List AnalysedTweet :=
  ((sorted_by_score sel l).drop (l.length - n)).map Prod.snd

/-- Three negative tweets for the concrete top-n test, with a scoring tie. -/
def demo_partition : List AnalysedTweet :=
  [mk_scored 0 (1/2) 0, mk_scored 0 (3/10) 0, mk_scored 0 (1/2) 0]

theorem pos_neg_not_both (t : AnalysedTweet) :
    (is_tweet_positive t && is_tweet_negative t) = false := by
  simp only [Bool.and_eq_false_iff, is_tweet_positive, is_tweet_negative,
    decide_eq_false_iff_not, not_and, not_lt]
  rcases lt_trichotomy t.polarity_scores.pos t.polarity_scores.neg with h | h | h
  · exact Or.inl fun _ => le_of_lt h
  · exact Or.inl fun _ => le_of_eq h
  · exact Or.inr fun _ => le_of_lt h

/-- Claim C1: for every polarity-score triple of non-negative values, the three
category predicates agree with their reference definitions (and are total). -/
theorem classifier_matches_reference (t : AnalysedTweet)
    (hpos : 0 ≤ t.polarity_scores.pos) (hneg : 0 ≤ t.polarity_scores.neg)
    (hneu : 0 ≤ t.polarity_scores.neu) :
    (is_tweet_positive t = true ↔ is_positive_ref t.polarity_scores) ∧
    (is_tweet_negative t = true ↔ is_negative_ref t.polarity_scores) ∧
    (is_tweet_neutral t = true ↔ is_neutral_ref t.polarity_scores) := by
  simp [is_tweet_positive, is_tweet_negative, is_tweet_neutral,
    is_positive_ref, is_negative_ref, is_neutral_ref]

/-- Witness for C1 at the concrete triple (pos, neg, neu) = (1, 0, 0). -/
theorem classifier_matches_reference_witness :
    (0:ℚ) ≤ 1 ∧
    ((is_tweet_positive ⟨⟨[], 0⟩, ⟨1, 0, 0⟩⟩ = true ↔ is_positive_ref ⟨1, 0, 0⟩) ∧
     (is_tweet_negative ⟨⟨[], 0⟩, ⟨1, 0, 0⟩⟩ = true ↔ is_negative_ref ⟨1, 0, 0⟩) ∧
     (is_tweet_neutral ⟨⟨[], 0⟩, ⟨1, 0, 0⟩⟩ = true ↔ is_neutral_ref ⟨1, 0, 0⟩)) :=
  ⟨by norm_num,
   classifier_matches_reference ⟨⟨[], 0⟩, ⟨1, 0, 0⟩⟩ (by norm_num) (by norm_num) (by norm_num)⟩

/-- Counterexample to claim C2: at the non-negative triple
(pos, neg, neu) = (3/10, 1/10, 6/10) the tweet is classified both positive and
neutral, so neutral does coexist with positive. -/
theorem neutral_positive_overlap :
    is_tweet_positive ⟨⟨[], 0⟩, ⟨3/10, 1/10, 6/10⟩⟩ = true ∧
    is_tweet_neutral ⟨⟨[], 0⟩, ⟨3/10, 1/10, 6/10⟩⟩ = true := by
  constructor <;> · simp [is_tweet_positive, is_tweet_neutral]; norm_num

/-- Claim C2 (amended): positive and negative are mutually exclusive, but
neutral can coexist with positive and with negative. -/
theorem pos_neg_exclusive_neutral_can_overlap :
    (∀ t : AnalysedTweet, (is_tweet_positive t && is_tweet_negative t) = false) ∧
    (∃ t : AnalysedTweet, is_tweet_positive t = true ∧ is_tweet_neutral t = true) ∧
    (∃ t : AnalysedTweet, is_tweet_negative t = true ∧ is_tweet_neutral t = true) := by
  refine ⟨pos_neg_not_both, ⟨⟨⟨[], 0⟩, ⟨3/10, 1/10, 6/10⟩⟩, ?_, ?_⟩,
    ⟨⟨⟨[], 0⟩, ⟨1/10, 3/10, 6/10⟩⟩, ?_, ?_⟩⟩
  all_goals · simp [is_tweet_positive, is_tweet_negative, is_tweet_neutral]; norm_num

/-- Claim C3: at most one of positive/negative holds, and an exact tie
`pos = neg` makes both false. -/
theorem pos_neg_mutually_exclusive (t : AnalysedTweet) :
    (is_tweet_positive t && is_tweet_negative t) = false ∧
    (t.polarity_scores.pos = t.polarity_scores.neg →
      is_tweet_positive t = false ∧ is_tweet_negative t = false) := by
  constructor
  · exact pos_neg_not_both t
  · intro h
    simp [is_tweet_positive, is_tweet_negative, h]

/-- Witness for C3 at the tied triple (pos, neg, neu) = (2/5, 2/5, 1/5). -/
theorem pos_neg_mutually_exclusive_witness :
    (is_tweet_positive ⟨⟨[], 0⟩, ⟨2/5, 2/5, 1/5⟩⟩ &&
      is_tweet_negative ⟨⟨[], 0⟩, ⟨2/5, 2/5, 1/5⟩⟩) = false ∧
    (is_tweet_positive ⟨⟨[], 0⟩, ⟨2/5, 2/5, 1/5⟩⟩ = false ∧
     is_tweet_negative ⟨⟨[], 0⟩, ⟨2/5, 2/5, 1/5⟩⟩ = false) :=
  ⟨(pos_neg_mutually_exclusive ⟨⟨[], 0⟩, ⟨2/5, 2/5, 1/5⟩⟩).1,
   (pos_neg_mutually_exclusive ⟨⟨[], 0⟩, ⟨2/5, 2/5, 1/5⟩⟩).2 rfl⟩

theorem classify_tweets_eq_filter (ts : List AnalysedTweet) :
    classify_tweets ts =
      (ts.filter is_tweet_positive, ts.filter is_tweet_negative, ts.filter is_tweet_neutral) := by
  induction ts with
  | nil => rfl
  | cons t ts ih => simp [classify_tweets, ih, List.filter_cons]

/-- Claim C4: a record is in a partition iff it is in the input and the
corresponding predicate holds, and every partition is a subsequence of the
input (order preserved, no duplication). -/
theorem classify_tweets_partition (ts : List AnalysedTweet) :
    (∀ t, t ∈ (classify_tweets ts).1 ↔ t ∈ ts ∧ is_tweet_positive t = true) ∧
    (∀ t, t ∈ (classify_tweets ts).2.1 ↔ t ∈ ts ∧ is_tweet_negative t = true) ∧
    (∀ t, t ∈ (classify_tweets ts).2.2 ↔ t ∈ ts ∧ is_tweet_neutral t = true) ∧
    (classify_tweets ts).1.Sublist ts ∧
    (classify_tweets ts).2.1.Sublist ts ∧
    (classify_tweets ts).2.2.Sublist ts := by
  rw [classify_tweets_eq_filter]
  exact ⟨fun t => List.mem_filter, fun t => List.mem_filter, fun t => List.mem_filter,
    List.filter_sublist ts, List.filter_sublist ts, List.filter_sublist ts⟩

/-- Claim C6: the reporter fails (raises `ZeroDivisionError`, here `none`)
exactly when a denominator is zero: the corpus is empty, or the two score
sums add to exactly zero.  It never coerces those cases to a report. -/
theorem metrics_divide_by_zero (analysed_tweets positive_tweets negative_tweets : List AnalysedTweet) :
    print_overall_metrics analysed_tweets positive_tweets negative_tweets = none ↔
      analysed_tweets.length = 0 ∨
      positive_sentiment_score positive_tweets + negative_sentiment_score negative_tweets = 0 := by
  by_cases h : analysed_tweets.length = 0
  · simp [print_overall_metrics, h]
  · by_cases h2 : positive_sentiment_score positive_tweets +
        negative_sentiment_score negative_tweets = 0
    · simp [print_overall_metrics, h, h2]
    · simp [print_overall_metrics, h, h2]

/-- Claim C5: on a non-empty corpus with a nonzero combined score sum, the
reporter returns exactly the spec's formulas: the two count ratios
`100 * count / total`, the two score sums, the positive percentage
`100 * pos_sum / (pos_sum + neg_sum)`, and the negative percentage as its
complement to 100. -/
theorem metrics_formulas (analysed_tweets positive_tweets negative_tweets : List AnalysedTweet)
    (ha : analysed_tweets ≠ [])
    (hs : positive_sentiment_score positive_tweets + negative_sentiment_score negative_tweets ≠ 0) :
    print_overall_metrics analysed_tweets positive_tweets negative_tweets =
      some ⟨100 * (positive_tweets.length : ℚ) / (analysed_tweets.length : ℚ),
        100 * (negative_tweets.length : ℚ) / (analysed_tweets.length : ℚ),
        positive_sentiment_score positive_tweets,
        negative_sentiment_score negative_tweets,
        100 * positive_sentiment_score positive_tweets /
          (positive_sentiment_score positive_tweets + negative_sentiment_score negative_tweets),
        100 - 100 * positive_sentiment_score positive_tweets /
          (positive_sentiment_score positive_tweets + negative_sentiment_score negative_tweets)⟩ := by
  have h0 : analysed_tweets.length ≠ 0 := by
    simpa [List.length_eq_zero] using ha
  unfold print_overall_metrics
  rw [if_neg h0, if_neg hs]
  congr 1
  have h1 : ((positive_tweets.length : ℚ) / (analysed_tweets.length : ℚ)) * 100 =
      100 * (positive_tweets.length : ℚ) / (analysed_tweets.length : ℚ) := by ring
  have h2 : ((negative_tweets.length : ℚ) / (analysed_tweets.length : ℚ)) * 100 =
      100 * (negative_tweets.length : ℚ) / (analysed_tweets.length : ℚ) := by ring
  have h3 : positive_sentiment_score positive_tweets /
      (positive_sentiment_score positive_tweets + negative_sentiment_score negative_tweets) * 100 =
      100 * positive_sentiment_score positive_tweets /
      (positive_sentiment_score positive_tweets + negative_sentiment_score negative_tweets) := by
    ring
  have h4 : negative_sentiment_score negative_tweets /
      (positive_sentiment_score positive_tweets + negative_sentiment_score negative_tweets) * 100 =
      100 - 100 * positive_sentiment_score positive_tweets /
      (positive_sentiment_score positive_tweets + negative_sentiment_score negative_tweets) := by
    field_simp
    ring
  rw [h1, h2, h3, h4]

/-- Claim C8: the filter rejects exactly the texts containing the reference
marker; it is total, and the empty text is eligible. -/
theorem is_eligible_marker (text : List Char) :
    (is_eligible text = false ↔ reference_marker <:+: text) ∧ is_eligible [] = true := by
  constructor
  · simp [is_eligible]
  · decide

/-- Counterexample to claim C9: with `limit = 0` supplied, the claim says
every record is excluded, but the code treats 0 as falsy and processes the
whole dataset - here one eligible row, yielding one analysed tweet. -/
theorem limit_zero_processes_all :
    analyze_tweets zero_scorer [⟨[], 0⟩] (some 0) = [⟨⟨[], 0⟩, ⟨0, 0, 0⟩⟩] ∧
    (analyze_tweets zero_scorer [⟨[], 0⟩] (some 0)).length = 1 := by
  constructor <;> rfl

theorem analyze_tweets_loop_break (score : List Char → PolarityScores) (n : Nat)
    (hn : 0 < n) (rows : List CsvRow) :
    ∀ i, analyze_tweets_loop score (some n) (List.enumFrom i rows) =
      analyze_tweets_loop score none (List.enumFrom i (rows.take (n - i))) := by
  induction rows with
  | nil =>
    intro i
    rw [List.take_nil]
    rfl
  | cons r rs ih =>
    intro i
    by_cases hi : n ≤ i
    · have h0 : n - i = 0 := Nat.sub_eq_zero_of_le hi
      rw [h0, List.take_zero, List.enumFrom_cons]
      simp [analyze_tweets_loop, limit_truthy, Nat.pos_iff_ne_zero.mp hn, hi]
    · have hstep : n - i = (n - (i + 1)) + 1 := by omega
      rw [hstep, List.take_succ_cons, List.enumFrom_cons, List.enumFrom_cons]
      simp [analyze_tweets_loop, limit_truthy, hi, ih (i + 1)]

theorem analyze_tweets_loop_falsy (score : List Char → PolarityScores) :
    ∀ xs, analyze_tweets_loop score (some 0) xs = analyze_tweets_loop score none xs := by
  intro xs
  induction xs with
  | nil => rfl
  | cons x rest ih =>
    obtain ⟨i, row⟩ := x
    simp [analyze_tweets_loop, limit_truthy, ih]

/-- Claim C9 (amended): for a positive limit n the code analyses exactly the
first n dataset rows (the row at position p is considered iff p < n), while
limit = 0 - being falsy in Python - disables truncation entirely, exactly
like passing no limit. -/
theorem analyze_tweets_limit (score : List Char → PolarityScores) (rows : List CsvRow)
    (n : Nat) (hn : 0 < n) :
    analyze_tweets score rows (some n) = analyze_tweets score (rows.take n) none ∧
    analyze_tweets score rows (some 0) = analyze_tweets score rows none := by
  constructor
  · unfold analyze_tweets
    rw [List.enum_eq_enumFrom, List.enum_eq_enumFrom]
    have h := analyze_tweets_loop_break score n hn rows 0
    simpa using h
  · unfold analyze_tweets
    exact analyze_tweets_loop_falsy score rows.enum

/-- Witness for the amended C9 at two concrete rows and n = 1. -/
theorem analyze_tweets_limit_witness :
    0 < 1 ∧
    (analyze_tweets zero_scorer [⟨[], 0⟩, ⟨[], 1⟩] (some 1) =
        analyze_tweets zero_scorer ([⟨[], 0⟩, ⟨[], 1⟩].take 1) none ∧
      analyze_tweets zero_scorer [⟨[], 0⟩, ⟨[], 1⟩] (some 0) =
        analyze_tweets zero_scorer [⟨[], 0⟩, ⟨[], 1⟩] none) :=
  ⟨Nat.one_pos, analyze_tweets_limit zero_scorer [⟨[], 0⟩, ⟨[], 1⟩] 1 Nat.one_pos⟩

/-- Witness for C5 at the spec's example: 10 records, 4 positive with pos-sum 2,
3 negative with neg-sum 1, giving ratios 40 and 30 and score percentages
200/3 and 100/3 (about 66.67 and 33.33). -/
theorem metrics_formulas_witness :
    example_all ≠ [] ∧
    positive_sentiment_score example_positive + negative_sentiment_score example_negative ≠ 0 ∧
    print_overall_metrics example_all example_positive example_negative =
      some ⟨40, 30, 2, 1, 200/3, 100/3⟩ := by
  have ha : example_all ≠ [] := by simp [example_all]
  have hs : positive_sentiment_score example_positive +
      negative_sentiment_score example_negative ≠ 0 := by
    simp [positive_sentiment_score, negative_sentiment_score,
      example_positive, example_negative, mk_scored]
    norm_num
  refine ⟨ha, hs, ?_⟩
  rw [metrics_formulas example_all example_positive example_negative ha hs]
  simp only [positive_sentiment_score, negative_sentiment_score,
    example_all, example_positive, example_negative, mk_scored]
  norm_num

theorem filter_lengths_le (ts : List AnalysedTweet) :
    (ts.filter is_tweet_positive).length + (ts.filter is_tweet_negative).length ≤ ts.length := by
  induction ts with
  | nil => simp
  | cons t ts ih =>
    rw [List.filter_cons, List.filter_cons]
    by_cases hp : is_tweet_positive t = true
    · have hq : is_tweet_negative t = false := by
        have h := pos_neg_not_both t
        cases hne : is_tweet_negative t
        · rfl
        · rw [hp, hne] at h
          simp at h
      rw [if_pos hp, hq]
      simp only [Bool.false_eq_true, if_false, List.length_cons, List.length]
      omega
    · rw [if_neg hp]
      by_cases hq : is_tweet_negative t = true
      · rw [if_pos hq]
        simp only [List.length_cons, List.length]
        omega
      · rw [if_neg hq]
        simp only [List.length_cons]
        omega

/-- Claim C10: the positive and negative partitions of `classify_tweets` are
disjoint subsequences, so their lengths sum to at most the input length, and
whenever the reporter succeeds on them both ratios lie in [0, 100] and their
sum is at most 100. -/
theorem classify_ratio_bounds (ts : List AnalysedTweet) (s : SummaryReport)
    (h : print_overall_metrics ts (classify_tweets ts).1 (classify_tweets ts).2.1 = some s) :
    (classify_tweets ts).1.length + (classify_tweets ts).2.1.length ≤ ts.length ∧
    0 ≤ s.positive_tweets_ratio ∧ s.positive_tweets_ratio ≤ 100 ∧
    0 ≤ s.negative_tweets_ratio ∧ s.negative_tweets_ratio ≤ 100 ∧
    s.positive_tweets_ratio + s.negative_tweets_ratio ≤ 100 := by
  rw [classify_tweets_eq_filter] at h ⊢
  simp only at h ⊢
  have hsum := filter_lengths_le ts
  refine ⟨hsum, ?_⟩
  unfold print_overall_metrics at h
  by_cases h0 : ts.length = 0
  · rw [if_pos h0] at h
    exact absurd h (by simp)
  · rw [if_neg h0] at h
    by_cases h1 : positive_sentiment_score (ts.filter is_tweet_positive) +
        negative_sentiment_score (ts.filter is_tweet_negative) = 0
    · rw [if_pos h1] at h
      exact absurd h (by simp)
    · rw [if_neg h1] at h
      have hs := Option.some.inj h
      have hL : (0:ℚ) < (ts.length : ℚ) := by
        exact_mod_cast Nat.pos_of_ne_zero h0
      have hp_le : ((ts.filter is_tweet_positive).length : ℚ) ≤ (ts.length : ℚ) := by
        exact_mod_cast (List.filter_sublist ts).length_le
      have hn_le : ((ts.filter is_tweet_negative).length : ℚ) ≤ (ts.length : ℚ) := by
        exact_mod_cast (List.filter_sublist ts).length_le
      have hpn : ((ts.filter is_tweet_positive).length : ℚ) +
          ((ts.filter is_tweet_negative).length : ℚ) ≤ (ts.length : ℚ) := by
        exact_mod_cast hsum
      have hp0 : (0:ℚ) ≤ ((ts.filter is_tweet_positive).length : ℚ) := by positivity
      have hn0 : (0:ℚ) ≤ ((ts.filter is_tweet_negative).length : ℚ) := by positivity
      have e1 : s.positive_tweets_ratio =
          ((ts.filter is_tweet_positive).length : ℚ) / (ts.length : ℚ) * 100 := by
        rw [← hs]
      have e2 : s.negative_tweets_ratio =
          ((ts.filter is_tweet_negative).length : ℚ) / (ts.length : ℚ) * 100 := by
        rw [← hs]
      rw [e1, e2]
      have d1 : ((ts.filter is_tweet_positive).length : ℚ) / (ts.length : ℚ) ≤ 1 :=
        (div_le_one hL).mpr hp_le
      have d2 : ((ts.filter is_tweet_negative).length : ℚ) / (ts.length : ℚ) ≤ 1 :=
        (div_le_one hL).mpr hn_le
      have d0a : (0:ℚ) ≤ ((ts.filter is_tweet_positive).length : ℚ) / (ts.length : ℚ) := by
        positivity
      have d0b : (0:ℚ) ≤ ((ts.filter is_tweet_negative).length : ℚ) / (ts.length : ℚ) := by
        positivity
      have dsum : ((ts.filter is_tweet_positive).length : ℚ) / (ts.length : ℚ) +
          ((ts.filter is_tweet_negative).length : ℚ) / (ts.length : ℚ) ≤ 1 := by
        rw [div_add_div_same]
        exact (div_le_one hL).mpr hpn
      constructor
      · nlinarith
      constructor
      · nlinarith
      constructor
      · nlinarith
      constructor
      · nlinarith
      · nlinarith

/-- Witness for C10 on the one-record corpus whose single tweet is positive. -/
theorem classify_ratio_bounds_witness :
    (classify_tweets [mk_scored 1 0 0]).1.length +
      (classify_tweets [mk_scored 1 0 0]).2.1.length ≤ 1 ∧
    (0:ℚ) ≤ 100 ∧ (100:ℚ) ≤ 100 ∧ (0:ℚ) ≤ 0 ∧ (0:ℚ) ≤ 100 ∧ (100:ℚ) + 0 ≤ 100 := by
  have hcl : classify_tweets [mk_scored 1 0 0] = ([mk_scored 1 0 0], [], []) := by
    simp [classify_tweets, is_tweet_positive, is_tweet_negative, is_tweet_neutral, mk_scored]
  have h : print_overall_metrics [mk_scored 1 0 0] (classify_tweets [mk_scored 1 0 0]).1
      (classify_tweets [mk_scored 1 0 0]).2.1 = some ⟨100, 0, 1, 0, 100, 0⟩ := by
    rw [hcl]
    simp [print_overall_metrics, positive_sentiment_score, negative_sentiment_score, mk_scored]
  have hmain := classify_ratio_bounds [mk_scored 1 0 0] ⟨100, 0, 1, 0, 100, 0⟩ h
  simpa using hmain

theorem rank_le_trans (sel : PolarityScores → ℚ) (a b c : Nat × AnalysedTweet)
    (hab : rank_le sel a b = true) (hbc : rank_le sel b c = true) :
    rank_le sel a c = true := by
  simp only [rank_le, decide_eq_true_eq] at hab hbc ⊢
  rcases hab with h1 | ⟨h1, h1i⟩ <;> rcases hbc with h2 | ⟨h2, h2i⟩
  · exact Or.inl (lt_trans h1 h2)
  · exact Or.inl (h2 ▸ h1)
  · exact Or.inl (h1 ▸ h2)
  · exact Or.inr ⟨h1.trans h2, le_trans h1i h2i⟩

theorem rank_le_total (sel : PolarityScores → ℚ) (a b : Nat × AnalysedTweet) :
    (rank_le sel a b || rank_le sel b a) = true := by
  simp only [rank_le, Bool.or_eq_true, decide_eq_true_eq]
  rcases lt_trichotomy (sel a.2.polarity_scores) (sel b.2.polarity_scores) with h | h | h
  · exact Or.inl (Or.inl h)
  · rcases le_total a.1 b.1 with hi | hi
    · exact Or.inl (Or.inr ⟨h, hi⟩)
    · exact Or.inr (Or.inr ⟨h.symm, hi⟩)
  · exact Or.inr (Or.inl h)

theorem sorted_by_score_pairwise (sel : PolarityScores → ℚ) (l : List AnalysedTweet) :
    List.Pairwise (fun a b => rank_le sel a b = true) (sorted_by_score sel l) :=
  List.sorted_mergeSort (rank_le_trans sel) (rank_le_total sel) l.enum

theorem sorted_by_score_perm (sel : PolarityScores → ℚ) (l : List AnalysedTweet) :
    (sorted_by_score sel l).Perm l.enum :=
  List.mergeSort_perm l.enum (rank_le sel)

theorem sorted_by_score_length (sel : PolarityScores → ℚ) (l : List AnalysedTweet) :
    (sorted_by_score sel l).length = l.length := by
  rw [(sorted_by_score_perm sel l).length_eq, List.enum_length]

theorem sorted_by_score_le (sel : PolarityScores → ℚ) (l : List AnalysedTweet) :
    List.Pairwise (fun a b : Nat × AnalysedTweet =>
      sel a.2.polarity_scores ≤ sel b.2.polarity_scores) (sorted_by_score sel l) := by
  refine (sorted_by_score_pairwise sel l).imp ?_
  intro a b h
  simp only [rank_le, decide_eq_true_eq] at h
  rcases h with h | ⟨h, hi⟩
  · exact le_of_lt h
  · exact le_of_eq h

theorem sorted_by_score_stable (sel : PolarityScores → ℚ) (l : List AnalysedTweet) :
    List.Pairwise (fun a b : Nat × AnalysedTweet =>
      sel a.2.polarity_scores < sel b.2.polarity_scores ∨
      (sel a.2.polarity_scores = sel b.2.polarity_scores ∧ a.1 < b.1))
      (sorted_by_score sel l) := by
  have hnd : (List.map Prod.fst (sorted_by_score sel l)).Nodup := by
    have hperm := (sorted_by_score_perm sel l).map Prod.fst
    rw [hperm.nodup_iff, List.enum_map_fst]
    exact List.nodup_range _
  have hne : List.Pairwise (fun a b : Nat × AnalysedTweet => a.1 ≠ b.1)
      (sorted_by_score sel l) := by
    rw [List.Nodup, List.pairwise_map] at hnd
    exact hnd
  refine ((sorted_by_score_pairwise sel l).and hne).imp ?_
  rintro a b ⟨hab, hne2⟩
  simp only [rank_le, decide_eq_true_eq] at hab
  rcases hab with h | ⟨h, hi⟩
  · exact Or.inl h
  · exact Or.inr ⟨h, lt_of_le_of_ne hi hne2⟩

/-- Claim C7: the Top-N Ranker returns min(n, |partition|) records, ordered
ascending by the selected score (highest last, ties by original position -
the stable sort), where n = 0 gives the empty list, n at least the partition
length gives back the whole partition (as a permutation, sorted ascending),
and every record left out scores no higher than every record returned. -/
theorem top_n_ranker (l : List AnalysedTweet) (n : Nat) (sel : PolarityScores → ℚ) :
    (top_n l n sel).length = min n l.length ∧
    List.Pairwise (fun a b => sel a.polarity_scores ≤ sel b.polarity_scores) (top_n l n sel) ∧
    top_n l 0 sel = [] ∧
    (l.length ≤ n → (top_n l n sel).Perm l) ∧
    (∀ a ∈ (sorted_by_score sel l).take (l.length - n), ∀ b ∈ top_n l n sel,
      sel a.2.polarity_scores ≤ sel b.polarity_scores) ∧
    List.Pairwise (fun a b : Nat × AnalysedTweet =>
      sel a.2.polarity_scores < sel b.2.polarity_scores ∨
      (sel a.2.polarity_scores = sel b.2.polarity_scores ∧ a.1 < b.1))
      (sorted_by_score sel l) := by
  refine ⟨?_, ?_, ?_, ?_, ?_, sorted_by_score_stable sel l⟩
  · rw [top_n, List.length_map, List.length_drop, sorted_by_score_length]
    omega
  · rw [top_n, List.pairwise_map]
    exact List.Pairwise.sublist (List.drop_sublist _ _) (sorted_by_score_le sel l)
  · rw [top_n, Nat.sub_zero, List.drop_eq_nil_of_le (le_of_eq (sorted_by_score_length sel l)),
      List.map_nil]
  · intro hle
    rw [top_n, Nat.sub_eq_zero_of_le hle, List.drop_zero]
    have h := (sorted_by_score_perm sel l).map Prod.snd
    rwa [List.enum_map_snd] at h
  · intro a ha b hb
    rw [top_n, List.mem_map] at hb
    obtain ⟨p, hp, hpb⟩ := hb
    have h := sorted_by_score_le sel l
    rw [← List.take_append_drop (l.length - n) (sorted_by_score sel l),
      List.pairwise_append] at h
    have := h.2.2 a ha p hp
    rw [← hpb]
    exact this

/-- Witness for C7 at the three-record partition with n = 10 and the negative
score selector. -/
theorem top_n_ranker_witness :
    (top_n demo_partition 10 PolarityScores.neg).length = min 10 demo_partition.length ∧
    List.Pairwise (fun a b => PolarityScores.neg a.polarity_scores ≤
      PolarityScores.neg b.polarity_scores) (top_n demo_partition 10 PolarityScores.neg) ∧
    top_n demo_partition 0 PolarityScores.neg = [] ∧
    (top_n demo_partition 10 PolarityScores.neg).Perm demo_partition ∧
    (∀ a ∈ (sorted_by_score PolarityScores.neg demo_partition).take
        (demo_partition.length - 10),
      ∀ b ∈ top_n demo_partition 10 PolarityScores.neg,
      PolarityScores.neg a.2.polarity_scores ≤ PolarityScores.neg b.polarity_scores) ∧
    List.Pairwise (fun a b : Nat × AnalysedTweet =>
      PolarityScores.neg a.2.polarity_scores < PolarityScores.neg b.2.polarity_scores ∨
      (PolarityScores.neg a.2.polarity_scores = PolarityScores.neg b.2.polarity_scores ∧
        a.1 < b.1))
      (sorted_by_score PolarityScores.neg demo_partition) := by
  have h := top_n_ranker demo_partition 10 PolarityScores.neg
  exact ⟨h.1, h.2.1, h.2.2.1, h.2.2.2.1 (by simp [demo_partition]),
    h.2.2.2.2.1, h.2.2.2.2.2⟩

end SentimentAnalysis

